import Mathlib

/-!
Shallow embedding of the steve-twilio-relay turn controller
(src/unnamed/part_000, the richer variant with mute gate, mark events and
per-connection conversation history; src/server.js is the simpler variant).

Conventions of the embedding:
* frames and timestamps are naturals; a frame stands for one decoded
  base64 media payload;
* the three provider calls are modelled by an oracle recording what each
  provider would answer for this turn (the code awaits them in sequence);
* file system writes and ffmpeg transcoding are treated as total: the
  claims under study are about provider failures, mute gating, buffering
  and history, not about TranscodeFailure;
* the async message handler is split into its synchronous part (`step`,
  everything up to the first await of the pipeline) and the suspended
  pipeline continuation (`pipelineRun`), which a separate trace event
  `Ev.finishPipeline` completes.  This mirrors the node event loop: the
  synchronous part of each message handler runs atomically, awaited
  pipeline work interleaves with later messages.
-/

set_option maxRecDepth 8000

namespace Relay

/-- One chat message, as the objects pushed into `conversationHistory`. -/
structure Msg where
  role : String
  content : String
deriving DecidableEq, Repr

/-- The system preamble seeded into `conversationHistory` on connection
(content abridged; only its position at index 0 matters here). -/
def systemPreamble : Msg :=
  { role := "system", content := "You are Steve, a personal AI assistant." }

/-- The value stored in the `speakingUntil` map for a connection:
absent (no key), a concrete timestamp, or the `Infinity` sentinel. -/
inductive MuteState where
  | absent : MuteState
  | finite (t : Nat) : MuteState
  | infinite : MuteState
deriving DecidableEq, Repr

/-- The media-handler mute gate: `speakingUntil.has(ws)` and
(`until === Infinity || Date.now() < until`). -/
def mutedAt (m : MuteState) (now : Nat) : Bool :=
  match m with
  | MuteState.absent => false
  | MuteState.finite t => decide (now < t)
  | MuteState.infinite => true

/-- Outcome of the chat-completions fetch in `chatReply`:
a non-2xx response, or a 2xx response whose
`choices[0].message.content` may be missing (malformed). -/
inductive ChatResp where
  | httpError : ChatResp
  | ok (content : Option String) : ChatResp
deriving DecidableEq, Repr

/-- `history.splice(1, deleteCount, ...items)` of the source, as a pure
function: keep index 0, insert `items`, drop `deleteCount` entries. -/
def spliceAt1 (h : List Msg) (deleteCount : Nat) (items : List Msg) : List Msg :=
  h.take 1 ++ items ++ h.drop (1 + deleteCount)

/-- `history.splice(1, 1)`: remove the entry at index 1. -/
def dropSecond (h : List Msg) : List Msg :=
  h.take 1 ++ h.drop 2

/-- The `while (history.length > 21) history.splice(1, 1)` loop, with the
loop counter made explicit; each iteration shortens a list of length > 21,
so `h.length` rounds of fuel always suffice to reach the loop exit. -/
def shiftGo (fuel : Nat) (h : List Msg) : List Msg :=
  match fuel with
  | 0 => h
  | Nat.succ n => if 21 < h.length then shiftGo n (dropSecond h) else h

/-- The while loop of the prune block. -/
def shiftLoop (h : List Msg) : List Msg :=
  shiftGo h.length h

/-- The prune block of `chatReply`:
`if (history.length > 11) { const recent = history.slice(history.length - 10);`
`history.splice(1, history.length - 1 - 10, ...recent);`
`while (history.length > 21) history.splice(1, 1); }`. -/
def pruneHistory (h : List Msg) : List Msg :=
  if 11 < h.length then
    let recent := h.drop (h.length - 10)
    shiftLoop (spliceAt1 h (h.length - 1 - 10) recent)
  else h

/-- `chatReply(text, history)` of part_000, as a pure function from the
incoming history and the provider response to the returned reply text and
the history after the in-place mutations: push the user message; on a
non-2xx response return the fixed apology without touching the history
further; otherwise push the assistant reply (or the fixed fallback when
`choices[0].message.content` is missing) and run the prune block. -/
def chatReply (text : String) (history : List Msg) (resp : ChatResp) :
    String × List Msg :=
  let h1 := history ++ [{ role := "user", content := text }]
  match resp with
  | ChatResp.httpError => ("Sorry, I had a brain fart.", h1)
  | ChatResp.ok content =>
      let reply := content.getD "Sorry, I missed that."
      let h2 := h1 ++ [{ role := "assistant", content := reply }]
      (reply, pruneHistory h2)

/-- Outbound websocket messages the controller can emit; the fallback
tone payload of the greeting path is kept distinct from ordinary reply
audio so the claims about the tone can be stated. -/
inductive Out where
  | mediaOut : Out
  | markOut : Out
  | toneOut : Out
deriving DecidableEq, Repr

/-- What the three providers would answer for one pipeline run:
the transcript `whisperSTT` resolves to (`json.text || ''`, also on a
non-2xx response), the chat-completions outcome, and whether the
text-to-speech response is 2xx (on failure `elevenTTS` writes no file and
the following ffmpeg call throws). -/
structure Oracle where
  whisper : String
  chat : ChatResp
  ttsOk : Bool
deriving DecidableEq, Repr

/-- Result of the suspended part of the media pipeline. -/
structure PRes where
  chatCalled : Bool
  ttsCalled : Bool
  ttsText : Option String
  sends : List Out
  history2 : List Msg
  mute2 : MuteState
deriving DecidableEq, Repr

/-- The awaited body of the media handler after the flush (part_000 lines
188-225): transcribe; on an empty transcript return at once; otherwise
call `chatReply`, then `elevenTTS` on its reply.  When synthesis succeeds
the reply audio and a mark request are sent and `speakingUntil` is set to
`Infinity`; when it fails the ffmpeg step throws into the catch block, so
nothing is sent and the mute field is left alone. The history mutations
done inside `chatReply` persist on every path that reaches it. -/
def pipelineRun (history : List Msg) (mute : MuteState) (o : Oracle) : PRes :=
  if o.whisper = "" then
    { chatCalled := false, ttsCalled := false, ttsText := none,
      sends := [], history2 := history, mute2 := mute }
  else
    let r := chatReply o.whisper history o.chat
    if o.ttsOk then
      { chatCalled := true, ttsCalled := true, ttsText := some r.1,
        sends := [Out.mediaOut, Out.markOut], history2 := r.2,
        mute2 := MuteState.infinite }
    else
      { chatCalled := true, ttsCalled := true, ttsText := some r.1,
        sends := [], history2 := r.2, mute2 := mute }

/-- Transport and scheduler events driving one session.  `start` carries
the stream id, the arrival time and whether the greeting synthesis call
succeeds; `finishPipeline` resumes the oldest suspended pipeline run with
the recorded provider answers. -/
inductive Ev where
  | start (sid : Nat) (now : Nat) (greetOk : Bool) : Ev
  | media (frame : Nat) (now : Nat) : Ev
  | mark (now : Nat) : Ev
  | stop : Ev
  | finishPipeline (o : Oracle) : Ev
deriving DecidableEq, Repr

/-- The per-connection state: the entries of the four maps for one `ws`
key, plus bookkeeping that records what happened (`pending` holds the
frame chunks handed to started-but-unfinished pipeline runs, `flushed`
every chunk ever flushed, `acceptedAll` every frame accepted past the
mute gate, `outbox` all outbound messages). -/
structure SessionState where
  started : Bool
  streamSid : Option Nat
  audioBuffer : List Nat
  mute : MuteState
  history : List Msg
  pending : List (List Nat)
  flushed : List (List Nat)
  acceptedAll : List Nat
  outbox : List Out
  stopped : Bool
deriving DecidableEq, Repr

/-- State of a connection right after `wss.on('connection')` seeds the
history and before any event. -/
def initState : SessionState :=
  { started := false, streamSid := none, audioBuffer := [],
    mute := MuteState.absent, history := [systemPreamble], pending := [],
    flushed := [], acceptedAll := [], outbox := [], stopped := false }

/-- The synchronous part of the `ws.on('message')` handler for one event.

`start`: record the stream id, send the greeting audio (or, when the
synthesis call fails, the fallback tone, in which case `speakingUntil` is
not set), set `speakingUntil` to now + 2500 on success, and reset
`audioChunks` to `[]`.

`media`: drop the event when the mute gate holds; otherwise lazily create
the buffer, push the frame, and at 60 or more buffered frames flush the
chunk and start a pipeline run (the run suspends at its first await, so
only the buffer swap is visible here).

`mark`: set `speakingUntil` to now + 2000.

`stop`: delete the four map entries for this connection.

`finishPipeline`: the oldest suspended run resumes; after `stop` its
`chatReply` call throws on the deleted history entry and is swallowed by
the catch block, so it completes without effects. -/
def step (s : SessionState) (e : Ev) : SessionState :=
  match e with
  | Ev.start sid now greetOk =>
      if greetOk then
        { s with started := true, streamSid := some sid,
                 outbox := s.outbox ++ [Out.mediaOut],
                 mute := MuteState.finite (now + 2500), audioBuffer := [] }
      else
        { s with started := true, streamSid := some sid,
                 outbox := s.outbox ++ [Out.toneOut], audioBuffer := [] }
  | Ev.media f now =>
      if mutedAt s.mute now then s
      else
        let buf := s.audioBuffer ++ [f]
        if 60 ≤ buf.length then
          { s with audioBuffer := [], pending := s.pending ++ [buf],
                   flushed := s.flushed ++ [buf],
                   acceptedAll := s.acceptedAll ++ [f] }
        else
          { s with audioBuffer := buf,
                   acceptedAll := s.acceptedAll ++ [f] }
  | Ev.mark now => { s with mute := MuteState.finite (now + 2000) }
  | Ev.stop =>
      { s with audioBuffer := [], streamSid := none,
               mute := MuteState.absent, history := [], stopped := true }
  | Ev.finishPipeline o =>
      match s.pending with
      | [] => s
      | _ :: rest =>
          if s.stopped then { s with pending := rest }
          else
            let r := pipelineRun s.history s.mute o
            { s with pending := rest, history := r.history2,
                     mute := r.mute2, outbox := s.outbox ++ r.sends }

/-- Run a trace of events from a state. -/
def runTrace (s : SessionState) (tr : List Ev) : SessionState :=
  tr.foldl step s

/-- Events that occur within one started session lifecycle (everything
except `start` and `stop`). -/
def sessionEv : Ev → Bool
  | Ev.start _ _ _ => false
  | Ev.stop => false
  | _ => true

/-- Operations the conversation history store performs on one session's
message list: `chatReply` pushes, and the prune block. -/
inductive HOp where
  | append (m : Msg) : HOp
  | prune : HOp
deriving DecidableEq, Repr

/-- Apply one history-store operation. -/
def applyOp (h : List Msg) : HOp → List Msg
  | HOp.append m => h ++ [m]
  | HOp.prune => pruneHistory h

/-- Apply a sequence of history-store operations. -/
def applyOps (h : List Msg) (ops : List HOp) : List Msg :=
  ops.foldl applyOp h

/-! ### Helper lemmas about the prune block -/

theorem dropSecond_headq (h : List Msg) : (dropSecond h).head? = h.head? := by
  cases h <;> simp [dropSecond]

theorem shiftGo_headq (fuel : Nat) (h : List Msg) :
    (shiftGo fuel h).head? = h.head? := by
  induction fuel generalizing h with
  | zero => rfl
  | succ n ih =>
      simp only [shiftGo]
      split
      · exact (ih (dropSecond h)).trans (dropSecond_headq h)
      · rfl

theorem shiftGo_of_short (fuel : Nat) (h : List Msg) (hle : ¬ 21 < h.length) :
    shiftGo fuel h = h := by
  cases fuel with
  | zero => rfl
  | succ n => simp [shiftGo, hle]

theorem spliceAt1_prune_length (h : List Msg) (h11 : 11 < h.length) :
    (spliceAt1 h (h.length - 1 - 10) (h.drop (h.length - 10))).length = 21 := by
  simp only [spliceAt1, List.length_append, List.length_take, List.length_drop]
  omega

theorem pruneHistory_headq (h : List Msg) :
    (pruneHistory h).head? = h.head? := by
  unfold pruneHistory
  split
  · rename_i h11
    rw [shiftLoop, shiftGo_headq]
    cases h with
    | nil => simp at h11
    | cons a t => simp [spliceAt1]
  · rfl

theorem pruneHistory_ne_nil (h : List Msg) (hne : h ≠ []) :
    pruneHistory h ≠ [] := by
  intro hcon
  have h1 : (pruneHistory h).head? = h.head? := pruneHistory_headq h
  rw [hcon] at h1
  cases h with
  | nil => exact hne rfl
  | cons a t => simp at h1

theorem pruneHistory_length_le (h : List Msg) :
    (pruneHistory h).length ≤ 21 := by
  unfold pruneHistory
  split
  · rename_i h11
    rw [shiftLoop, shiftGo_of_short]
    · rw [spliceAt1_prune_length h h11]
    · rw [spliceAt1_prune_length h h11]
      omega
  · rename_i h11
    omega

theorem applyOps_headq (ops : List HOp) (h : List Msg) (hne : h ≠ []) :
    (applyOps h ops).head? = h.head? ∧ applyOps h ops ≠ [] := by
  induction ops generalizing h with
  | nil => exact ⟨rfl, hne⟩
  | cons op rest ih =>
      have hstep : (applyOp h op).head? = h.head? ∧ applyOp h op ≠ [] := by
        cases op with
        | append m =>
            cases h with
            | nil => exact absurd rfl hne
            | cons a t => constructor <;> simp [applyOp]
        | prune => exact ⟨pruneHistory_headq h, pruneHistory_ne_nil h hne⟩
      have hrest := ih (applyOp h op) hstep.2
      have hfold : applyOps h (op :: rest) = applyOps (applyOp h op) rest := rfl
      rw [hfold]
      exact ⟨hrest.1.trans hstep.1, hrest.2⟩

theorem applyOps_append_prune (ops : List HOp) (h : List Msg) :
    applyOps h (ops ++ [HOp.prune]) = pruneHistory (applyOps h ops) := by
  simp [applyOps, List.foldl_append, applyOp]

/-! ### The buffer invariant of the media handler -/

/-- The segmentation invariant: the flushed chunks followed by the live
buffer are exactly the accepted frames in arrival order, every flushed
chunk holds exactly 60 frames, and the live buffer stays below the
threshold. -/
def BufInv (s : SessionState) : Prop :=
  s.flushed.flatten ++ s.audioBuffer = s.acceptedAll ∧
  (∀ c ∈ s.flushed, c.length = 60) ∧
  s.audioBuffer.length < 60

theorem bufInv_step (s : SessionState) (e : Ev) (he : sessionEv e = true)
    (hs : BufInv s) : BufInv (step s e) := by
  obtain ⟨h1, h2, h3⟩ := hs
  cases e with
  | start sid now ok => simp [sessionEv] at he
  | stop => simp [sessionEv] at he
  | mark now => exact ⟨h1, h2, h3⟩
  | finishPipeline o =>
      simp only [step]
      split
      · exact ⟨h1, h2, h3⟩
      · split
        · exact ⟨h1, h2, h3⟩
        · exact ⟨h1, h2, h3⟩
  | media f now =>
      by_cases hm : mutedAt s.mute now = true
      · simpa [step, hm] using ⟨h1, h2, h3⟩
      · rw [Bool.not_eq_true] at hm
        by_cases hlen : 60 ≤ (s.audioBuffer ++ [f]).length
        · refine ⟨?_, ?_, ?_⟩ <;> simp only [step, hm, Bool.false_eq_true,
            if_false, hlen, if_true]
          · rw [List.flatten_append]
            simp only [List.flatten, List.append_nil]
            rw [← List.append_assoc, h1]
          · intro c hc
            rcases List.mem_append.mp hc with hcl | hcr
            · exact h2 c hcl
            · have hceq : c = s.audioBuffer ++ [f] := by simpa using hcr
              subst hceq
              simp only [List.length_append, List.length_cons, List.length_nil]
              simp only [List.length_append, List.length_cons,
                List.length_nil] at hlen
              omega
          · simp
        · refine ⟨?_, ?_, ?_⟩ <;> simp only [step, hm, Bool.false_eq_true,
            if_false, hlen, if_true]
          · rw [← List.append_assoc, h1]
          · exact h2
          · simp only [List.length_append, List.length_cons,
              List.length_nil] at hlen ⊢
            omega

theorem bufInv_runTrace (s : SessionState) (tr : List Ev)
    (htr : ∀ e ∈ tr, sessionEv e = true) (hs : BufInv s) :
    BufInv (runTrace s tr) := by
  induction tr generalizing s with
  | nil => exact hs
  | cons e rest ih =>
      have hfold : runTrace s (e :: rest) = runTrace (step s e) rest := rfl
      rw [hfold]
      exact ih (step s e)
        (fun x hx => htr x (List.mem_cons_of_mem e hx))
        (bufInv_step s e (htr e (List.mem_cons_self e rest)) hs)

/-! ### Concrete inputs used by counterexamples and witnesses -/

/-- A history of length 12, as it stands right after the assistant push of
the sixth exchange: the preamble followed by eleven alternating messages. -/
def historyAt12 : List Msg :=
  systemPreamble ::
    (List.range 11).map (fun i =>
      { role := if i % 2 = 0 then "user" else "assistant",
        content := toString i })

/-- A turn in which the chat-completions call answers non-2xx while
transcription and synthesis succeed. -/
def oracleChatFail : Oracle :=
  { whisper := "hi", chat := ChatResp.httpError, ttsOk := true }

/-- A turn in which synthesis answers non-2xx while transcription and
generation succeed. -/
def oracleTtsFail : Oracle :=
  { whisper := "hi", chat := ChatResp.ok (some "Sure thing."), ttsOk := false }

/-- A turn whose transcription comes back empty. -/
def oracleEmpty : Oracle :=
  { whisper := "", chat := ChatResp.ok (some "Sure thing."), ttsOk := true }

/-- A session state whose mute field holds the `Infinity` sentinel. -/
def mutedSession : SessionState :=
  { initState with mute := MuteState.infinite }

/-- One client turn: the stream starts at time 0 (greeting succeeds, so
`speakingUntil` becomes 2500), then 120 media frames arrive at time 3000
with the first pipeline run still awaiting its providers in between. -/
def overlapTrace : List Ev :=
  Ev.start 1 0 true :: List.replicate 120 (Ev.media 0 3000)

/-! ### Claim theorems -/

/-- C1 (code bug): the code keeps no same-Session concurrency guard.  On
`overlapTrace` a first pipeline run starts at the 60th accepted frame and
no completion event occurs, yet at the 120th frame the handler starts a
second run: two runs for the same session are in flight at once, where
the claim says the Controller refuses to start the second. -/
theorem c1_concurrent_runs :
    (runTrace initState
        (Ev.start 1 0 true :: List.replicate 60 (Ev.media 0 3000))).pending.length = 1 ∧
    (runTrace initState overlapTrace).pending.length = 2 := by decide

/-- C2: over any sequence of history-store operations on a nonempty
history, the message at index 0 (the preamble) is unchanged, and when the
sequence ends in a prune the total length is at most 21 — the bound the
while loop enforces, preamble plus the last K = 20 entries. -/
theorem c2_preamble_and_bound (ops : List HOp) (h : List Msg) (hne : h ≠ []) :
    (applyOps h ops).head? = h.head? ∧
    (applyOps h (ops ++ [HOp.prune])).length ≤ 21 := by
  refine ⟨(applyOps_headq ops h hne).1, ?_⟩
  rw [applyOps_append_prune]
  exact pruneHistory_length_le _

/-- Witness for C2 on the seeded history and one append then prune. -/
theorem c2_preamble_and_bound_witness :
    ([systemPreamble] : List Msg) ≠ [] ∧
    ((applyOps [systemPreamble] [HOp.append { role := "user", content := "hi" }]).head? =
        ([systemPreamble] : List Msg).head? ∧
      (applyOps [systemPreamble]
          ([HOp.append { role := "user", content := "hi" }] ++ [HOp.prune])).length ≤ 21) :=
  ⟨by decide,
    c2_preamble_and_bound [HOp.append { role := "user", content := "hi" }]
      [systemPreamble] (by decide)⟩

/-- C8: along any trace of in-session events (media, mark, pipeline
completions) from a state with an empty buffer and no flush yet, the
flushed chunks followed by the live buffer are exactly the frames
accepted past the mute gate, in arrival order; every flushed chunk holds
exactly 60 frames — the fixed threshold — and the live buffer never
reaches the threshold, so each flush empties the buffer and hands over
precisely the frames appended since the previous flush. -/
theorem c8_flush_exact (s0 : SessionState) (tr : List Ev)
    (hb : s0.audioBuffer = []) (hf : s0.flushed = []) (ha : s0.acceptedAll = [])
    (htr : ∀ e ∈ tr, sessionEv e = true) :
    (runTrace s0 tr).flushed.flatten ++ (runTrace s0 tr).audioBuffer =
      (runTrace s0 tr).acceptedAll ∧
    (∀ c ∈ (runTrace s0 tr).flushed, c.length = 60) ∧
    (runTrace s0 tr).audioBuffer.length < 60 :=
  bufInv_runTrace s0 tr htr (by rw [BufInv, hb, hf, ha]; exact ⟨rfl, by simp, by simp⟩)

/-- Witness for C8: the fresh session accepts one frame at time 3000. -/
theorem c8_flush_exact_witness :
    (initState.audioBuffer = [] ∧ initState.flushed = [] ∧
      initState.acceptedAll = [] ∧ ∀ e ∈ [Ev.media 7 3000], sessionEv e = true) ∧
    ((runTrace initState [Ev.media 7 3000]).flushed.flatten ++
        (runTrace initState [Ev.media 7 3000]).audioBuffer =
      (runTrace initState [Ev.media 7 3000]).acceptedAll ∧
    (∀ c ∈ (runTrace initState [Ev.media 7 3000]).flushed, c.length = 60) ∧
    (runTrace initState [Ev.media 7 3000]).audioBuffer.length < 60) :=
  ⟨⟨rfl, rfl, rfl, by decide⟩,
    c8_flush_exact initState [Ev.media 7 3000] rfl rfl rfl (by decide)⟩

/-- C3 (code bug): the prune block does not merely drop the oldest
non-preamble entries.  On a 12-message history the splice keeps index 0,
inserts the last ten messages, and leaves the same ten in place, so the
result duplicates each of them; the message that was inserted once now
occurs twice. -/
theorem c3_prune_duplicates :
    historyAt12.count { role := "user", content := "10" } = 1 ∧
    (pruneHistory historyAt12).count { role := "user", content := "10" } = 2 := by
  decide

/-- C4 counterexample: with a non-2xx chat-completions response (and the
other providers healthy), the pipeline still calls synthesis and still
sends outbound payloads, against the claim that the turn is abandoned
silently with no synthesis call and no outbound media. -/
theorem c4_counterexample :
    (pipelineRun [systemPreamble] MuteState.absent oracleChatFail).ttsCalled = true ∧
    (pipelineRun [systemPreamble] MuteState.absent oracleChatFail).sends ≠ [] := by
  decide

/-- C4 amended: when the Language Provider answers non-2xx on a nonempty
transcript, `chatReply` returns the fixed apology, synthesis is called on
exactly that apology, and when synthesis succeeds the apology audio and a
mark request are sent — the turn is not abandoned silently. -/
theorem c4_apology_spoken (h : List Msg) (m : MuteState) (o : Oracle)
    (hw : o.whisper ≠ "") (hc : o.chat = ChatResp.httpError) :
    (pipelineRun h m o).ttsCalled = true ∧
    (pipelineRun h m o).ttsText = some "Sorry, I had a brain fart." ∧
    (o.ttsOk = true → (pipelineRun h m o).sends = [Out.mediaOut, Out.markOut]) := by
  cases hts : o.ttsOk <;>
    simp [pipelineRun, hw, hc, hts, chatReply]

/-- Witness for C4 amended at a concrete turn. -/
theorem c4_apology_spoken_witness :
    (oracleChatFail.whisper ≠ "" ∧ oracleChatFail.chat = ChatResp.httpError) ∧
    ((pipelineRun [systemPreamble] MuteState.absent oracleChatFail).ttsCalled = true ∧
      (pipelineRun [systemPreamble] MuteState.absent oracleChatFail).ttsText =
        some "Sorry, I had a brain fart." ∧
      (oracleChatFail.ttsOk = true →
        (pipelineRun [systemPreamble] MuteState.absent oracleChatFail).sends =
          [Out.mediaOut, Out.markOut])) :=
  ⟨⟨by decide, rfl⟩,
    c4_apology_spoken [systemPreamble] MuteState.absent oracleChatFail (by decide) rfl⟩

/-- C5 counterexample: when synthesis fails during the media pipeline,
nothing at all is sent for that turn — in particular no tone payload,
against the claim that the fallback tone is substituted. -/
theorem c5_counterexample :
    Out.toneOut ∉ (pipelineRun [systemPreamble] MuteState.absent oracleTtsFail).sends ∧
    (pipelineRun [systemPreamble] MuteState.absent oracleTtsFail).sends = [] := by
  decide

/-- C5 amended: a synthesis failure during the PROCESSING pipeline sends
no payload (the ffmpeg step throws into the catch block); the fallback
tone is substituted only in the greeting path, where a failed synthesis
call makes the handler send the tone payload. -/
theorem c5_tone_only_in_greeting (h : List Msg) (m : MuteState) (o : Oracle)
    (hts : o.ttsOk = false) (s : SessionState) (sid now : Nat) :
    (pipelineRun h m o).sends = [] ∧
    (step s (Ev.start sid now false)).outbox = s.outbox ++ [Out.toneOut] := by
  constructor
  · by_cases hw : o.whisper = "" <;> simp [pipelineRun, hw, hts]
  · simp [step]

/-- Witness for C5 amended at a concrete turn and session. -/
theorem c5_tone_only_in_greeting_witness :
    oracleTtsFail.ttsOk = false ∧
    ((pipelineRun [systemPreamble] MuteState.absent oracleTtsFail).sends = [] ∧
      (step initState (Ev.start 1 0 false)).outbox = initState.outbox ++ [Out.toneOut]) :=
  ⟨rfl, c5_tone_only_in_greeting [systemPreamble] MuteState.absent oracleTtsFail rfl
    initState 1 0⟩

/-- C6: a `media` event arriving while the mute field is the `Infinity`
sentinel or an unexpired timestamp is dropped before buffering: the whole
session state, in particular the buffered frame count and the set of
started pipeline runs, is unchanged. -/
theorem c6_muted_media_dropped (s : SessionState) (f now : Nat)
    (hm : mutedAt s.mute now = true) :
    step s (Ev.media f now) = s := by
  simp [step, hm]

/-- Witness for C6: an indefinitely muted session drops a frame. -/
theorem c6_muted_media_dropped_witness :
    mutedAt mutedSession.mute 0 = true ∧
    step mutedSession (Ev.media 3 0) = mutedSession :=
  ⟨rfl, c6_muted_media_dropped mutedSession 3 0 rfl⟩

/-- C7: on an empty transcript the pipeline returns before the language
and synthesis calls: neither provider is called, nothing is sent, and the
history and mute field are unchanged, so the session keeps listening. -/
theorem c7_empty_transcript_silent (h : List Msg) (m : MuteState) (o : Oracle)
    (hw : o.whisper = "") :
    (pipelineRun h m o).chatCalled = false ∧
    (pipelineRun h m o).ttsCalled = false ∧
    (pipelineRun h m o).sends = [] ∧
    (pipelineRun h m o).history2 = h ∧
    (pipelineRun h m o).mute2 = m := by
  simp [pipelineRun, hw]

/-- Witness for C7 at a concrete empty-transcript turn. -/
theorem c7_empty_transcript_silent_witness :
    oracleEmpty.whisper = "" ∧
    ((pipelineRun [systemPreamble] MuteState.absent oracleEmpty).chatCalled = false ∧
      (pipelineRun [systemPreamble] MuteState.absent oracleEmpty).ttsCalled = false ∧
      (pipelineRun [systemPreamble] MuteState.absent oracleEmpty).sends = [] ∧
      (pipelineRun [systemPreamble] MuteState.absent oracleEmpty).history2 =
        [systemPreamble] ∧
      (pipelineRun [systemPreamble] MuteState.absent oracleEmpty).mute2 =
        MuteState.absent) :=
  ⟨rfl, c7_empty_transcript_silent [systemPreamble] MuteState.absent oracleEmpty rfl⟩

/-- C9 counterexample: a `media` event on a freshly connected session, no
`start` yet received, is not ignored: the handler lazily creates the
buffer and appends to it, so the buffered frame count grows from 0 to 1.-/
theorem c9_counterexample :
    initState.started = false ∧ initState.audioBuffer = [] ∧
    (step initState (Ev.media 5 0)).audioBuffer = [5] := by decide

/-- C9 amended: before `start`, `media` events are handled exactly as
after it — the frame is buffered (via lazy buffer creation), and the 60th
buffered frame flushes the chunk and starts a pipeline run. -/
theorem c9_prestart_media_buffered (s : SessionState) (f now : Nat)
    (_hs : s.started = false) (hm : mutedAt s.mute now = false) :
    (s.audioBuffer.length + 1 < 60 →
      (step s (Ev.media f now)).audioBuffer = s.audioBuffer ++ [f]) ∧
    (s.audioBuffer.length + 1 = 60 →
      (step s (Ev.media f now)).audioBuffer = [] ∧
      (step s (Ev.media f now)).pending = s.pending ++ [s.audioBuffer ++ [f]]) := by
  constructor
  · intro hlt
    have h59 : ¬ 59 ≤ s.audioBuffer.length := by omega
    simp [step, hm, h59]
  · intro heq
    have h59 : 59 ≤ s.audioBuffer.length := by omega
    simp [step, hm, h59]

/-- Witness for C9 amended on a freshly connected, unmuted session. -/
theorem c9_prestart_media_buffered_witness :
    (initState.started = false ∧ mutedAt initState.mute 0 = false) ∧
    ((initState.audioBuffer.length + 1 < 60 →
      (step initState (Ev.media 5 0)).audioBuffer = initState.audioBuffer ++ [5]) ∧
    (initState.audioBuffer.length + 1 = 60 →
      (step initState (Ev.media 5 0)).audioBuffer = [] ∧
      (step initState (Ev.media 5 0)).pending =
        initState.pending ++ [initState.audioBuffer ++ [5]])) :=
  ⟨⟨rfl, rfl⟩, c9_prestart_media_buffered initState 5 0 rfl rfl⟩

/-- C10: on a non-2xx chat-completions response, `chatReply` returns the
fixed apology string rather than signalling the failure, and leaves the
history with the user message appended, no assistant message and no
prune run — the pre-call state is not restored. -/
theorem c10_chat_error_keeps_user_message (text : String) (h : List Msg) :
    chatReply text h ChatResp.httpError =
      ("Sorry, I had a brain fart.", h ++ [{ role := "user", content := text }]) := rfl

end Relay
